import Mathlib

/-!
# Cloud Rosetta — verification of the equivalence-resolution and plan-translation engine

Shallow embedding of the engine in `scripts/database_manager.py` and
`scripts/translator.py`.  The SQLite store is modelled as Lean lists of rows
(in insertion order, i.e. `rowid` order, which is the order SQLite returns
rows in when no `ORDER BY` is given); SQL `REAL` columns are modelled as `ℚ`
(every comparison the engine performs on this dataset is exact, so the `ℚ`
model orders candidates exactly as SQLite's doubles do); `ORDER BY a, b
LIMIT 1` is modelled as selecting the first row of the scan that is minimal
for the lexicographic key `(a, b)`.
-/

namespace CloudRosetta

attribute [local semireducible] Rat.mul Rat.add Rat.sub Rat.inv Rat.ofScientific

/-- Strict lexicographic order on a two-component `ℚ` sort key, as produced by
`ORDER BY k₁, k₂`. -/
def qlexLt (a b : ℚ × ℚ) : Prop :=
  a.1 < b.1 ∨ (a.1 = b.1 ∧ a.2 < b.2)

instance (a b : ℚ × ℚ) : Decidable (qlexLt a b) :=
  inferInstanceAs (Decidable (_ ∨ _))

theorem qlexLt_irrefl (a : ℚ × ℚ) : ¬ qlexLt a a := by
  rintro (h | ⟨-, h⟩) <;> exact lt_irrefl _ h

theorem qlexLt_trans {a b c : ℚ × ℚ} (h1 : qlexLt a b) (h2 : qlexLt b c) :
    qlexLt a c := by
  rcases h1 with h1 | ⟨e1, h1⟩ <;> rcases h2 with h2 | ⟨e2, h2⟩
  · exact Or.inl (lt_trans h1 h2)
  · exact Or.inl (e2 ▸ h1)
  · exact Or.inl (e1 ▸ h2)
  · exact Or.inr ⟨e1.trans e2, lt_trans h1 h2⟩

/-- Totality consequence: if `x` is not below `y` but is below `z`, then `y`
is below `z`. -/
theorem qlexLt_of_not_lt_of_lt {x y z : ℚ × ℚ}
    (h1 : ¬ qlexLt x y) (h2 : qlexLt x z) : qlexLt y z := by
  rcases lt_trichotomy x.1 y.1 with hf | hf | hf
  · exact absurd (Or.inl hf) h1
  · rcases lt_trichotomy x.2 y.2 with hs | hs | hs
    · exact absurd (Or.inr ⟨hf, hs⟩) h1
    · rcases h2 with h2 | ⟨e2, h2⟩
      · exact Or.inl (hf ▸ h2)
      · exact Or.inr ⟨hf.symm.trans e2, hs ▸ h2⟩
    · rcases h2 with h2 | ⟨e2, h2⟩
      · exact Or.inl (hf ▸ h2)
      · exact Or.inr ⟨hf.symm.trans e2, lt_trans hs h2⟩
  · rcases h2 with h2 | ⟨e2, h2⟩
    · exact Or.inl (lt_trans hf h2)
    · exact Or.inl (e2 ▸ hf)

/-- One comparison step of the scan behind `ORDER BY … LIMIT 1`: keep the
current best row unless the new row's key is strictly smaller. -/
def minStep (key : α → ℚ × ℚ) (b c : α) : α :=
  if qlexLt (key c) (key b) then c else b

/-- `ORDER BY key LIMIT 1` over a row list: the first row of the scan whose
key is minimal, or `none` for an empty row set. -/
def selectMin (key : α → ℚ × ℚ) : List α → Option α
  | [] => none
  | x :: xs => some (xs.foldl (minStep key) x)

theorem foldl_minStep_mem (key : α → ℚ × ℚ) (l : List α) (a : α) :
    l.foldl (minStep key) a = a ∨ l.foldl (minStep key) a ∈ l := by
  induction l generalizing a with
  | nil => exact Or.inl rfl
  | cons c t ih =>
    simp only [List.foldl_cons]
    rcases ih (minStep key a c) with h | h
    · rw [h]
      unfold minStep
      split
      · exact Or.inr (List.mem_cons_self _ _)
      · exact Or.inl rfl
    · exact Or.inr (List.mem_cons_of_mem _ h)

theorem foldl_minStep_min (key : α → ℚ × ℚ) (l : List α) :
    ∀ a : α, ¬ qlexLt (key a) (key (l.foldl (minStep key) a)) ∧
      ∀ c ∈ l, ¬ qlexLt (key c) (key (l.foldl (minStep key) a)) := by
  induction l with
  | nil =>
    intro a
    exact ⟨qlexLt_irrefl _, by simp⟩
  | cons c t ih =>
    intro a
    obtain ⟨h1, h2⟩ := ih (minStep key a c)
    simp only [List.foldl_cons]
    by_cases hq : qlexLt (key c) (key a)
    · have hs : minStep key a c = c := by simp [minStep, hq]
      rw [hs] at h1 h2 ⊢
      refine ⟨fun har => h1 (qlexLt_trans hq har), ?_⟩
      intro d hd
      rcases List.mem_cons.1 hd with rfl | hd
      · exact h1
      · exact h2 d hd
    · have hs : minStep key a c = a := by simp [minStep, hq]
      rw [hs] at h1 h2 ⊢
      refine ⟨h1, ?_⟩
      intro d hd
      rcases List.mem_cons.1 hd with rfl | hd
      · exact fun hdr => h1 (qlexLt_of_not_lt_of_lt hq hdr)
      · exact h2 d hd

theorem selectMin_eq_none_iff (key : α → ℚ × ℚ) (l : List α) :
    selectMin key l = none ↔ l = [] := by
  cases l <;> simp [selectMin]

theorem selectMin_mem {key : α → ℚ × ℚ} {l : List α} {x : α}
    (h : selectMin key l = some x) : x ∈ l := by
  cases l with
  | nil => simp [selectMin] at h
  | cons a t =>
    simp only [selectMin, Option.some.injEq] at h
    subst h
    rcases foldl_minStep_mem key t a with hm | hm
    · rw [hm]; exact List.mem_cons_self _ _
    · exact List.mem_cons_of_mem _ hm

theorem selectMin_not_lt {key : α → ℚ × ℚ} {l : List α} {x : α}
    (h : selectMin key l = some x) : ∀ c ∈ l, ¬ qlexLt (key c) (key x) := by
  cases l with
  | nil => simp [selectMin] at h
  | cons a t =>
    simp only [selectMin, Option.some.injEq] at h
    subst h
    obtain ⟨h1, h2⟩ := foldl_minStep_min key t a
    intro c hc
    rcases List.mem_cons.1 hc with rfl | hc
    · exact h1
    · exact h2 c hc

/-! ## Instance specs (`instance_types` table, `find_equivalent_instance`)

Row fields are the columns the resolver reads (`provider`, `instance_type`,
`vcpu`, `memory_gb`, `family`); the remaining seed columns (`generation`,
`network_performance`, `storage_type`, `storage_gb`, `gpu_count`, `gpu_type`,
`hourly_price`) are never read by any resolver and are projected away. -/

structure InstanceRow where
  provider : String
  instance_type : String
  vcpu : Int
  memory_gb : ℚ
  family : String
deriving DecidableEq

/-- `SELECT vcpu, memory_gb, family FROM instance_types WHERE provider = ?
AND instance_type = ?` (unique by table constraint; modelled as first match). -/
def lookupInstance (db : List InstanceRow) (p t : String) : Option InstanceRow :=
  db.find? (fun r => r.provider == p && r.instance_type == t)

/-- The `WHERE` window of `find_equivalent_instance`:
`vcpu >= ? * 0.5 AND vcpu <= ? * 2 AND memory_gb >= ? * 0.5 AND memory_gb <= ? * 2`. -/
def inWindow (s c : InstanceRow) : Prop :=
  (s.vcpu : ℚ) * (1/2) ≤ (c.vcpu : ℚ) ∧ (c.vcpu : ℚ) ≤ (s.vcpu : ℚ) * 2 ∧
  s.memory_gb * (1/2) ≤ c.memory_gb ∧ c.memory_gb ≤ s.memory_gb * 2

instance (s c : InstanceRow) : Decidable (inWindow s c) :=
  inferInstanceAs (Decidable (_ ∧ _ ∧ _ ∧ _))

/-- Candidate set: all target-provider rows inside the vcpu/memory window. -/
def instanceCandidates (db : List InstanceRow) (s : InstanceRow)
    (target_provider : String) : List InstanceRow :=
  db.filter (fun c => c.provider == target_provider && decide (inWindow s c))

/-- Sort key of `find_equivalent_instance`:
`CASE WHEN family = ? THEN 0 ELSE 1 END` then
`ABS(vcpu - ?) + ABS(memory_gb - ?) * 0.5`. -/
def instKey (s c : InstanceRow) : ℚ × ℚ :=
  (if c.family = s.family then 0 else 1,
   |(c.vcpu : ℚ) - (s.vcpu : ℚ)| + |c.memory_gb - s.memory_gb| * (1/2))

/-- `CloudRosettaDB.find_equivalent_instance`. -/
def find_equivalent_instance (db : List InstanceRow)
    (source_provider source_type target_provider : String) : Option String :=
  match lookupInstance db source_provider source_type with
  | none => none
  | some s =>
    (selectMin (instKey s) (instanceCandidates db s target_provider)).map
      (fun c => c.instance_type)

/-- Seed data of `populate_initial_data`: OVH, AWS and Hetzner instance types,
in insertion order. -/
def initialInstanceTypes : List InstanceRow := [
  ⟨"ovh", "d2-2", 1, 2, "general"⟩,
  ⟨"ovh", "d2-4", 2, 4, "general"⟩,
  ⟨"ovh", "d2-8", 4, 8, "general"⟩,
  ⟨"ovh", "b2-7", 2, 7, "general"⟩,
  ⟨"ovh", "b2-15", 4, 15, "general"⟩,
  ⟨"ovh", "b2-30", 8, 30, "general"⟩,
  ⟨"ovh", "b2-60", 16, 60, "general"⟩,
  ⟨"ovh", "b2-120", 32, 120, "general"⟩,
  ⟨"ovh", "c2-7", 2, 7, "compute"⟩,
  ⟨"ovh", "c2-15", 4, 15, "compute"⟩,
  ⟨"ovh", "c2-30", 8, 30, "compute"⟩,
  ⟨"ovh", "c2-60", 16, 60, "compute"⟩,
  ⟨"ovh", "r2-15", 2, 15, "memory"⟩,
  ⟨"ovh", "r2-30", 4, 30, "memory"⟩,
  ⟨"ovh", "r2-60", 8, 60, "memory"⟩,
  ⟨"ovh", "r2-120", 16, 120, "memory"⟩,
  ⟨"aws", "t3.nano", 2, 1/2, "burstable"⟩,
  ⟨"aws", "t3.micro", 2, 1, "burstable"⟩,
  ⟨"aws", "t3.small", 2, 2, "burstable"⟩,
  ⟨"aws", "t3.medium", 2, 4, "burstable"⟩,
  ⟨"aws", "t3.large", 2, 8, "burstable"⟩,
  ⟨"aws", "m5.large", 2, 8, "general"⟩,
  ⟨"aws", "m5.xlarge", 4, 16, "general"⟩,
  ⟨"aws", "m5.2xlarge", 8, 32, "general"⟩,
  ⟨"aws", "m5.4xlarge", 16, 64, "general"⟩,
  ⟨"aws", "m5.8xlarge", 32, 128, "general"⟩,
  ⟨"aws", "c5.large", 2, 4, "compute"⟩,
  ⟨"aws", "c5.xlarge", 4, 8, "compute"⟩,
  ⟨"aws", "c5.2xlarge", 8, 16, "compute"⟩,
  ⟨"aws", "c5.4xlarge", 16, 32, "compute"⟩,
  ⟨"aws", "r5.large", 2, 16, "memory"⟩,
  ⟨"aws", "r5.xlarge", 4, 32, "memory"⟩,
  ⟨"aws", "r5.2xlarge", 8, 64, "memory"⟩,
  ⟨"aws", "r5.4xlarge", 16, 128, "memory"⟩,
  ⟨"hetzner", "cx11", 1, 2, "general"⟩,
  ⟨"hetzner", "cx21", 2, 4, "general"⟩,
  ⟨"hetzner", "cx31", 2, 8, "general"⟩,
  ⟨"hetzner", "cx41", 4, 16, "general"⟩,
  ⟨"hetzner", "cx51", 8, 32, "general"⟩,
  ⟨"hetzner", "cpx11", 2, 2, "general"⟩,
  ⟨"hetzner", "cpx21", 3, 4, "general"⟩,
  ⟨"hetzner", "cpx31", 4, 8, "general"⟩,
  ⟨"hetzner", "cpx41", 8, 16, "general"⟩]

example :
    find_equivalent_instance initialInstanceTypes "aws" "t3.micro" "hetzner" =
      some "cpx11" := by decide

/-! ## Regions (`regions` table, `find_nearest_region`) -/

structure RegionRow where
  provider : String
  region_code : String
  region_name : String
  country : String
  continent : String
  latitude : ℚ
  longitude : ℚ
deriving DecidableEq

/-- `SELECT latitude, longitude, continent FROM regions WHERE provider = ?
AND region_code = ?` (unique by table constraint; modelled as first match). -/
def lookupRegion (db : List RegionRow) (p code : String) : Option RegionRow :=
  db.find? (fun r => r.provider == p && r.region_code == code)

/-- Candidate set of `find_nearest_region`: every region of the target
provider (no window). -/
def regionCandidates (db : List RegionRow) (target_provider : String) :
    List RegionRow :=
  db.filter (fun c => c.provider == target_provider)

/-- `((latitude - ?) * (latitude - ?) + (longitude - ?) * (longitude - ?))`. -/
def distSq (s c : RegionRow) : ℚ :=
  (c.latitude - s.latitude) * (c.latitude - s.latitude) +
  (c.longitude - s.longitude) * (c.longitude - s.longitude)

/-- Sort key of `find_nearest_region`:
`CASE WHEN continent = ? THEN 0 ELSE 1 END` then squared planar distance. -/
def regionKey (s c : RegionRow) : ℚ × ℚ :=
  (if c.continent = s.continent then 0 else 1, distSq s c)

/-- `CloudRosettaDB.find_nearest_region`. -/
def find_nearest_region (db : List RegionRow)
    (source_provider source_region target_provider : String) : Option String :=
  match lookupRegion db source_provider source_region with
  | none => none
  | some s =>
    (selectMin (regionKey s) (regionCandidates db target_provider)).map
      (fun c => c.region_code)

/-- Seed data of `populate_initial_data`: OVH, AWS and Hetzner regions, in
insertion order. -/
def initialRegions : List RegionRow := [
  ⟨"ovh", "GRA9", "Gravelines, France", "France", "Europe", 50.987, 2.762⟩,
  ⟨"ovh", "GRA11", "Gravelines, France", "France", "Europe", 50.987, 2.762⟩,
  ⟨"ovh", "SBG5", "Strasbourg, France", "France", "Europe", 48.573, 7.752⟩,
  ⟨"ovh", "RBX", "Roubaix, France", "France", "Europe", 50.694, 3.174⟩,
  ⟨"ovh", "DE1", "Frankfurt, Germany", "Germany", "Europe", 50.110, 8.682⟩,
  ⟨"ovh", "UK1", "London, UK", "UK", "Europe", 51.507, -0.127⟩,
  ⟨"ovh", "WAW1", "Warsaw, Poland", "Poland", "Europe", 52.229, 21.012⟩,
  ⟨"ovh", "BHS5", "Beauharnois, Canada", "Canada", "North America", 45.315, -73.874⟩,
  ⟨"ovh", "SGP1", "Singapore", "Singapore", "Asia", 1.352, 103.819⟩,
  ⟨"ovh", "SYD1", "Sydney, Australia", "Australia", "Oceania", -33.868, 151.209⟩,
  ⟨"aws", "us-east-1", "N. Virginia, USA", "USA", "North America", 38.747, -77.517⟩,
  ⟨"aws", "us-west-2", "Oregon, USA", "USA", "North America", 45.523, -122.676⟩,
  ⟨"aws", "eu-west-1", "Ireland", "Ireland", "Europe", 53.349, -6.260⟩,
  ⟨"aws", "eu-west-2", "London, UK", "UK", "Europe", 51.507, -0.127⟩,
  ⟨"aws", "eu-west-3", "Paris, France", "France", "Europe", 48.856, 2.352⟩,
  ⟨"aws", "eu-central-1", "Frankfurt, Germany", "Germany", "Europe", 50.110, 8.682⟩,
  ⟨"aws", "ap-southeast-1", "Singapore", "Singapore", "Asia", 1.352, 103.819⟩,
  ⟨"aws", "ap-southeast-2", "Sydney, Australia", "Australia", "Oceania", -33.868, 151.209⟩,
  ⟨"aws", "ca-central-1", "Montreal, Canada", "Canada", "North America", 45.501, -73.567⟩,
  ⟨"hetzner", "nbg1", "Nuremberg, Germany", "Germany", "Europe", 49.452, 11.077⟩,
  ⟨"hetzner", "fsn1", "Falkenstein, Germany", "Germany", "Europe", 50.478, 12.337⟩,
  ⟨"hetzner", "hel1", "Helsinki, Finland", "Finland", "Europe", 60.169, 24.938⟩,
  ⟨"hetzner", "ash", "Ashburn, USA", "USA", "North America", 39.043, -77.487⟩]

example :
    find_nearest_region initialRegions "aws" "eu-west-2" "ovh" = some "UK1" := by
  decide

/-! ## Resource types (`resource_types` table, `map_resource_type`) -/

structure ResourceTypeRow where
  provider : String
  resource_type : String
  resource_category : String
  terraform_type : String
deriving DecidableEq

/-- `CloudRosettaDB.map_resource_type`: look up the category of the source
terraform type (by `terraform_type` alone, no provider filter), then
`SELECT terraform_type FROM resource_types WHERE provider = ? AND
resource_category = ? LIMIT 1`.  The second query has no `ORDER BY`, so
SQLite returns whichever matching row its scan reaches first; the embedding
takes the first matching row of the list, i.e. `rowid` (insertion) order. -/
def map_resource_type (db : List ResourceTypeRow)
    (source_terraform_type target_provider : String) : Option String :=
  match db.find? (fun r => r.terraform_type == source_terraform_type) with
  | none => none
  | some r =>
    (db.find? (fun c => c.provider == target_provider &&
        c.resource_category == r.resource_category)).map
      (fun c => c.terraform_type)

/-- Seed data of `populate_initial_data`: resource type mappings, in
insertion order. -/
def initialResourceTypes : List ResourceTypeRow := [
  ⟨"ovh", "compute", "compute", "openstack_compute_instance_v2"⟩,
  ⟨"ovh", "keypair", "compute", "openstack_compute_keypair_v2"⟩,
  ⟨"ovh", "volume", "storage", "openstack_blockstorage_volume_v3"⟩,
  ⟨"ovh", "loadbalancer", "network", "openstack_lb_loadbalancer_v2"⟩,
  ⟨"ovh", "floating_ip", "network", "openstack_networking_floatingip_v2"⟩,
  ⟨"ovh", "network", "network", "openstack_networking_network_v2"⟩,
  ⟨"ovh", "subnet", "network", "openstack_networking_subnet_v2"⟩,
  ⟨"ovh", "security_group", "network", "openstack_networking_secgroup_v2"⟩,
  ⟨"ovh", "object_storage", "storage", "openstack_objectstorage_container_v1"⟩,
  ⟨"aws", "compute", "compute", "aws_instance"⟩,
  ⟨"aws", "keypair", "compute", "aws_key_pair"⟩,
  ⟨"aws", "volume", "storage", "aws_ebs_volume"⟩,
  ⟨"aws", "loadbalancer", "network", "aws_lb"⟩,
  ⟨"aws", "floating_ip", "network", "aws_eip"⟩,
  ⟨"aws", "network", "network", "aws_vpc"⟩,
  ⟨"aws", "subnet", "network", "aws_subnet"⟩,
  ⟨"aws", "security_group", "network", "aws_security_group"⟩,
  ⟨"aws", "object_storage", "storage", "aws_s3_bucket"⟩,
  ⟨"hetzner", "compute", "compute", "hcloud_server"⟩,
  ⟨"hetzner", "keypair", "compute", "hcloud_ssh_key"⟩,
  ⟨"hetzner", "volume", "storage", "hcloud_volume"⟩,
  ⟨"hetzner", "loadbalancer", "network", "hcloud_load_balancer"⟩,
  ⟨"hetzner", "floating_ip", "network", "hcloud_floating_ip"⟩,
  ⟨"hetzner", "network", "network", "hcloud_network"⟩,
  ⟨"hetzner", "subnet", "network", "hcloud_network_subnet"⟩]

example : map_resource_type initialResourceTypes "aws_instance" "ovh" =
    some "openstack_compute_instance_v2" := by decide

example : map_resource_type initialResourceTypes "aws_key_pair" "aws" =
    some "aws_instance" := by decide

/-! ## Images (`images` table, the inline image JOIN in
`translate_instance_values`) -/

structure ImageRow where
  provider : String
  image_name : String
  os_family : String
  os_version : String
deriving DecidableEq

/-- The inline query of `translate_instance_values`: join `images` with
itself on `(os_family, os_version)`, source row keyed by
`(provider, image_name)` (unique by table constraint), first matching
target-provider row (`LIMIT 1`, scan order). -/
def findImageEquivalent (db : List ImageRow)
    (source_provider image_name target_provider : String) : Option String :=
  match db.find? (fun i => i.provider == source_provider &&
      i.image_name == image_name) with
  | none => none
  | some i1 =>
    (db.find? (fun i2 => i2.provider == target_provider &&
        i2.os_family == i1.os_family && i2.os_version == i1.os_version)).map
      (fun i2 => i2.image_name)

/-- Seed data of `populate_initial_data`: image mappings, in insertion
order (the `architecture` column, constant `x86_64`, is never read). -/
def initialImages : List ImageRow := [
  ⟨"ovh", "Ubuntu 24.04", "ubuntu", "24.04"⟩,
  ⟨"ovh", "Ubuntu 22.04", "ubuntu", "22.04"⟩,
  ⟨"ovh", "Ubuntu 20.04", "ubuntu", "20.04"⟩,
  ⟨"ovh", "Debian 12", "debian", "12"⟩,
  ⟨"ovh", "Debian 11", "debian", "11"⟩,
  ⟨"ovh", "CentOS 8", "centos", "8"⟩,
  ⟨"ovh", "Rocky Linux 8", "rocky", "8"⟩,
  ⟨"ovh", "AlmaLinux 8", "almalinux", "8"⟩,
  ⟨"aws", "ami-ubuntu-24.04", "ubuntu", "24.04"⟩,
  ⟨"aws", "ami-ubuntu-22.04", "ubuntu", "22.04"⟩,
  ⟨"aws", "ami-ubuntu-20.04", "ubuntu", "20.04"⟩,
  ⟨"aws", "ami-debian-12", "debian", "12"⟩,
  ⟨"aws", "ami-debian-11", "debian", "11"⟩,
  ⟨"aws", "ami-centos-8", "centos", "8"⟩,
  ⟨"hetzner", "ubuntu-24.04", "ubuntu", "24.04"⟩,
  ⟨"hetzner", "ubuntu-22.04", "ubuntu", "22.04"⟩,
  ⟨"hetzner", "ubuntu-20.04", "ubuntu", "20.04"⟩,
  ⟨"hetzner", "debian-12", "debian", "12"⟩,
  ⟨"hetzner", "debian-11", "debian", "11"⟩,
  ⟨"hetzner", "centos-8", "centos", "8"⟩,
  ⟨"hetzner", "rocky-8", "rocky", "8"⟩,
  ⟨"hetzner", "almalinux-8", "almalinux", "8"⟩]

/-- The pre-populated read-only mapping store, as `populate_initial_data`
builds it. -/
structure MappingStore where
  instance_types : List InstanceRow
  regions : List RegionRow
  resource_types : List ResourceTypeRow
  images : List ImageRow

def initialStore : MappingStore :=
  ⟨initialInstanceTypes, initialRegions, initialResourceTypes, initialImages⟩

/-! ## Plan documents (`translator.py`)

JSON values are modelled by `JVal`; a JSON object / Python dict is a key
ordered association list with distinct keys (JSON parsing deduplicates).
String functions (`startswith`, `endswith`, slicing, `in`, `lower`) are
modelled on the character list of the string. -/

inductive JVal where
  | str : String → JVal
  | bool : Bool → JVal
  | num : ℚ → JVal
  | list : List JVal → JVal
  | obj : List (String × JVal) → JVal
deriving BEq

abbrev Vals := List (String × JVal)

/-- `values[k]` / `k in values`: first binding of `k`. -/
def lookupVal (v : Vals) (k : String) : Option JVal :=
  (v.find? (fun p => p.1 == k)).map (fun p => p.2)

def asStr : JVal → Option String
  | .str s => some s
  | _ => none

/-- Python `sub in s` (substring containment) on character lists. -/
def listContainsSub (pat : List Char) : List Char → Bool
  | [] => pat.isPrefixOf []
  | c :: t => pat.isPrefixOf (c :: t) || listContainsSub pat t

def strContainsSub (s pat : String) : Bool :=
  listContainsSub pat.data s.data

/-- Python `s.startswith(pat)`. -/
def strStartsWith (s pat : String) : Bool :=
  pat.data.isPrefixOf s.data

/-- Python `s.lower()` (ASCII suffices for the provider names compared). -/
def strLower (s : String) : String :=
  ⟨s.data.map Char.toLower⟩

/-- Python `s.endswith(('a', 'b', 'c', 'd'))`. -/
def endsWithAZoneLetter (s : String) : Bool :=
  match s.data.getLast? with
  | some c => c == 'a' || c == 'b' || c == 'c' || c == 'd'
  | none => false

/-- Python `s[:-1]`. -/
def dropLastChar (s : String) : String :=
  ⟨s.data.dropLast⟩

/-- A resource entry under `planned_values.root_module.resources`.  The
fields `address`, `type`, `provider_name` and `values` are the keys
`translate` reads or writes; `extra` stands for every other key of the
entry's JSON object, which the translator never touches. -/
structure PlanResource where
  address : String
  type : String
  provider_name : String
  values : Vals
  extra : Vals
deriving BEq

/-- The `change` object of a `resource_changes` entry: `after` is present or
absent (`"after" in change["change"]`); `before` and any other key are never
touched. -/
structure ChangeBlock where
  before : Option Vals
  after : Option Vals
  extra : Vals
deriving BEq

/-- A resource entry under `resource_changes`. -/
structure ResourceChange where
  address : String
  type : String
  provider_name : String
  change : Option ChangeBlock
  extra : Vals
deriving BEq

/-- The plan document.  `provider_config_keys` projects
`configuration.provider_config` to its key list (detection only reads key
membership; `update_provider_config` replaces the whole block with a fixed
literal whose single key is recorded here); `none` models an absent
`configuration`/`provider_config`/`planned_values…resources`/
`resource_changes` section. -/
structure PlanDocument where
  provider_config_keys : Option (List String)
  planned_resources : Option (List PlanResource)
  resource_changes : Option (List ResourceChange)
deriving BEq

/-- Key-membership step of `detect_source_provider` over
`configuration.provider_config`. -/
def providerFromKeys (keys : List String) : Option String :=
  if keys.contains "openstack" || keys.contains "openstack.ovh" then some "ovh"
  else if keys.contains "aws" then some "aws"
  else if keys.contains "hcloud" then some "hetzner"
  else if keys.contains "azurerm" then some "azure"
  else if keys.contains "google" then some "gcp"
  else none

/-- Prefix table of the `resource_changes` fallback of
`detect_source_provider`. -/
def providerFromType (t : String) : Option String :=
  if strStartsWith t "openstack_" then some "ovh"
  else if strStartsWith t "aws_" then some "aws"
  else if strStartsWith t "hcloud_" then some "hetzner"
  else if strStartsWith t "azurerm_" then some "azure"
  else if strStartsWith t "google_" then some "gcp"
  else none

/-- `RosettaTranslator.detect_source_provider`: provider-config keys first;
when they identify nothing (or the block is absent) scan `resource_changes`
and return the table entry of the first resource whose native type matches a
known prefix; otherwise the sentinel `"unknown"`. -/
def detect_source_provider (plan : PlanDocument) : String :=
  let fallback :=
    match plan.resource_changes with
    | some changes => (changes.findSome? (fun c => providerFromType c.type)).getD "unknown"
    | none => "unknown"
  match plan.provider_config_keys with
  | some keys =>
    match providerFromKeys keys with
    | some p => p
    | none => fallback
  | none => fallback

/-- The `provider_map.get(self.target_provider, provider)` table of
`translate_provider_name` (the `"ovh"` entry pointing at the AWS registry is
a verbatim source quirk). -/
def providerMapGet (target_provider provider : String) : String :=
  if target_provider == "ovh" then "registry.terraform.io/hashicorp/aws"
  else if target_provider == "aws" then "registry.terraform.io/hashicorp/aws"
  else if target_provider == "hetzner" then "registry.terraform.io/hetznercloud/hcloud"
  else if target_provider == "azure" then "registry.terraform.io/hashicorp/azurerm"
  else if target_provider == "gcp" then "registry.terraform.io/hashicorp/google"
  else provider

/-- `RosettaTranslator.translate_provider_name`. -/
def translate_provider_name (target_provider provider : String) : String :=
  if strContainsSub (strLower provider) "openstack" then
    providerMapGet target_provider provider
  else if strContainsSub (strLower provider) "aws" then
    providerMapGet target_provider provider
  else if strContainsSub (strLower provider) "hcloud" then
    providerMapGet target_provider provider
  else provider

/-! ### `translate_instance_values`

The translated map is built fresh; the source dict is only read.  Each
`if`-block of the Python body is one `…Part` definition below and the result
is their concatenation (the blocks write pairwise distinct keys).  A DB
lookup keyed by a value that is not a JSON string is a miss (SQLite compares
the non-text value against the `TEXT` column and matches no row). -/

/-- The `flavor_name`/`instance_type`/`server_type` `if/elif` chain: the
first of the three keys present picks the branch; a successful instance
lookup is written into the field name hardcoded for the target provider,
and discarded for any other target. -/
def identPart (idb : List InstanceRow) (source_provider target_provider : String)
    (values : Vals) : Vals :=
  match lookupVal values "flavor_name" with
  | some v =>
    match (asStr v).bind
        (fun flavor => find_equivalent_instance idb source_provider flavor target_provider) with
    | some it =>
      if target_provider == "aws" then [("instance_type", JVal.str it)]
      else if target_provider == "hetzner" then [("server_type", JVal.str it)]
      else []
    | none => []
  | none =>
    match lookupVal values "instance_type" with
    | some v =>
      match (asStr v).bind
          (fun t => find_equivalent_instance idb source_provider t target_provider) with
      | some mt =>
        if target_provider == "ovh" then [("flavor_name", JVal.str mt)]
        else if target_provider == "hetzner" then [("server_type", JVal.str mt)]
        else []
      | none => []
    | none =>
      match lookupVal values "server_type" with
      | some v =>
        match (asStr v).bind
            (fun t => find_equivalent_instance idb source_provider t target_provider) with
        | some mt =>
          if target_provider == "aws" then [("instance_type", JVal.str mt)]
          else if target_provider == "ovh" then [("flavor_name", JVal.str mt)]
          else []
        | none => []
      | none => []

/-- The region block: first present of `region`/`location`/
`availability_zone`; an AWS-source availability zone loses its trailing
letter before lookup; an AWS target receives a synthesized zone
`<region>a`. -/
def regionPart (rdb : List RegionRow) (source_provider target_provider : String)
    (values : Vals) : Vals :=
  let region_field :=
    if (lookupVal values "region").isSome then some "region"
    else if (lookupVal values "location").isSome then some "location"
    else if (lookupVal values "availability_zone").isSome then some "availability_zone"
    else none
  match region_field with
  | none => []
  | some rf =>
    match (lookupVal values rf).bind asStr with
    | none => []
    | some sr0 =>
      let sr :=
        if source_provider == "aws" && endsWithAZoneLetter sr0 then dropLastChar sr0
        else sr0
      match find_nearest_region rdb source_provider sr target_provider with
      | none => []
      | some tr =>
        if target_provider == "aws" then [("availability_zone", JVal.str (tr ++ "a"))]
        else if target_provider == "hetzner" then [("location", JVal.str tr)]
        else [("region", JVal.str tr)]

/-- The `image_name` block (inline JOIN on the `images` table). -/
def imagePart (imdb : List ImageRow) (source_provider target_provider : String)
    (values : Vals) : Vals :=
  match lookupVal values "image_name" with
  | some v =>
    match (asStr v).bind
        (fun n => findImageEquivalent imdb source_provider n target_provider) with
    | some img =>
      if target_provider == "aws" then [("ami", JVal.str img)]
      else if target_provider == "hetzner" then [("image", JVal.str img)]
      else [("image_name", JVal.str img)]
    | none => []
  | none => []

/-- `name` → AWS target: `tags = {"Name": …}`, others keep `name`. -/
def namePart (target_provider : String) (values : Vals) : Vals :=
  match lookupVal values "name" with
  | some v =>
    if target_provider == "aws" then [("tags", JVal.obj [("Name", v)])]
    else [("name", v)]
  | none => []

/-- `key_pair` → AWS target: `key_name`; Hetzner target: one-element
`ssh_keys`; any other target drops it. -/
def keyPairPart (target_provider : String) (values : Vals) : Vals :=
  match lookupVal values "key_pair" with
  | some v =>
    if target_provider == "aws" then [("key_name", v)]
    else if target_provider == "hetzner" then [("ssh_keys", JVal.list [v])]
    else []
  | none => []

/-- `user_data` passes through unchanged. -/
def userDataPart (values : Vals) : Vals :=
  match lookupVal values "user_data" with
  | some v => [("user_data", v)]
  | none => []

/-- Non-empty `network` list on an AWS target sets
`associate_public_ip_address = true`. -/
def networkPart (target_provider : String) (values : Vals) : Vals :=
  match lookupVal values "network" with
  | some (.list l) =>
    if l.length > 0 then
      if target_provider == "aws" then [("associate_public_ip_address", JVal.bool true)]
      else []
    else []
  | some _ => []
  | none => []

/-- `security_groups` on an AWS target becomes `vpc_security_group_ids`. -/
def securityGroupsPart (target_provider : String) (values : Vals) : Vals :=
  match lookupVal values "security_groups" with
  | some v => if target_provider == "aws" then [("vpc_security_group_ids", v)] else []
  | none => []

/-- `RosettaTranslator.translate_instance_values`. -/
def translate_instance_values (store : MappingStore)
    (source_provider target_provider : String) (values : Vals) : Vals :=
  identPart store.instance_types source_provider target_provider values ++
  regionPart store.regions source_provider target_provider values ++
  imagePart store.images source_provider target_provider values ++
  namePart target_provider values ++
  keyPairPart target_provider values ++
  userDataPart values ++
  networkPart target_provider values ++
  securityGroupsPart target_provider values

/-- The three source-provider blacklists of `cleanup_values`. -/
def cleanupFields (source_provider : String) : List String :=
  if source_provider == "ovh" then
    ["flavor_name", "image_name", "region", "network", "metadata",
     "power_state", "admin_pass", "personality", "vendor_options",
     "scheduler_hints", "network_mode", "config_drive",
     "availability_zone_hints", "block_device", "force_delete",
     "stop_before_destroy"]
  else if source_provider == "aws" then
    ["instance_type", "ami", "availability_zone", "tags",
     "key_name", "associate_public_ip_address",
     "vpc_security_group_ids"]
  else if source_provider == "hetzner" then
    ["server_type", "image", "location", "ssh_keys",
     "datacenter", "firewall_ids", "placement_group_id"]
  else []

/-- `RosettaTranslator.cleanup_values`: pop every blacklisted key of the
*source* provider from the value map. -/
def cleanup_values (source_provider : String) (values : Vals) : Vals :=
  values.filter (fun p => !((cleanupFields source_provider).contains p.1))

/-- `"compute" in t or "instance" in t or "server" in t`. -/
def isComputeLike (t : String) : Bool :=
  strContainsSub t "compute" || strContainsSub t "instance" || strContainsSub t "server"

/-- One `planned_values` resource entry of `translate`: resolve the type; a
miss leaves the entry untouched; a hit rewrites `type` and `provider_name`,
translates the value map for compute-like types, and always cleans up. -/
def translate_resource (store : MappingStore)
    (source_provider target_provider : String) (r : PlanResource) : PlanResource :=
  match map_resource_type store.resource_types r.type target_provider with
  | none => r
  | some new_type =>
    let values1 :=
      if isComputeLike r.type then
        translate_instance_values store source_provider target_provider r.values
      else r.values
    { r with
      type := new_type,
      provider_name := translate_provider_name target_provider r.provider_name,
      values := cleanup_values source_provider values1 }

/-- One `resource_changes` entry of `translate`: same resolution; `type` and
`provider_name` are rewritten before the `change`/`after` presence test, and
only a present `change.after` map is translated and cleaned. -/
def translate_change (store : MappingStore)
    (source_provider target_provider : String) (c : ResourceChange) : ResourceChange :=
  match map_resource_type store.resource_types c.type target_provider with
  | none => c
  | some new_type =>
    let c1 := { c with
      type := new_type,
      provider_name := translate_provider_name target_provider c.provider_name }
    match c.change with
    | none => c1
    | some blk =>
      match blk.after with
      | none => c1
      | some aft =>
        let aft1 :=
          if isComputeLike c.type then
            translate_instance_values store source_provider target_provider aft
          else aft
        { c1 with
          change := some { blk with after := some (cleanup_values source_provider aft1) } }

/-- `RosettaTranslator.update_provider_config`, projected to the key list of
the replaced `provider_config` block (absent configuration is left absent). -/
def update_provider_config (keys : Option (List String)) (target_provider : String) :
    Option (List String) :=
  match keys with
  | none => none
  | some ks =>
    if target_provider == "aws" then some ["aws"]
    else if target_provider == "hetzner" then some ["hcloud"]
    else if target_provider == "ovh" then some ["openstack"]
    else if target_provider == "azure" then some ["azurerm"]
    else if target_provider == "gcp" then some ["google"]
    else some ks

/-- `RosettaTranslator.translate`: detect the source provider, rewrite every
entry of both sections, and replace the provider configuration. -/
def translate (store : MappingStore) (plan : PlanDocument)
    (target_provider : String) : PlanDocument :=
  let source_provider := detect_source_provider plan
  { provider_config_keys := update_provider_config plan.provider_config_keys target_provider,
    planned_resources :=
      plan.planned_resources.map
        (List.map (translate_resource store source_provider target_provider)),
    resource_changes :=
      plan.resource_changes.map
        (List.map (translate_change store source_provider target_provider)) }

/-! ## Claim theorems -/

/-- C1: for every source instance present in the store and every target
provider, `resolve_instance` considers exactly the bounded candidate set,
returns `none` iff that set is empty, and otherwise returns the
`instance_type` of a candidate that is minimal for the lexicographic order
"family equality with the source first, then ascending score
`|Δvcpu| + 0.5·|Δmemory_gb|`" — i.e. the first candidate in that order; in
particular, aws `t3.micro` resolved against hetzner yields `cpx11`. -/
theorem C1_instance_order (db : List InstanceRow) (sp st tp : String)
    (s : InstanceRow) (h : lookupInstance db sp st = some s) :
    (find_equivalent_instance db sp st tp = none ↔ instanceCandidates db s tp = []) ∧
    (∀ t, find_equivalent_instance db sp st tp = some t →
      ∃ c ∈ instanceCandidates db s tp, c.instance_type = t ∧
        ∀ d ∈ instanceCandidates db s tp, ¬ qlexLt (instKey s d) (instKey s c)) ∧
    find_equivalent_instance initialInstanceTypes "aws" "t3.micro" "hetzner" =
      some "cpx11" := by
  have hf : find_equivalent_instance db sp st tp =
      (selectMin (instKey s) (instanceCandidates db s tp)).map
        (fun c => c.instance_type) := by
    unfold find_equivalent_instance lookupInstance
    rw [show db.find? (fun r => r.provider == sp && r.instance_type == st) = some s from h]
  refine ⟨?_, ?_, by decide⟩
  · rw [hf, Option.map_eq_none', selectMin_eq_none_iff]
  · intro t ht
    rw [hf] at ht
    rcases Option.map_eq_some'.1 ht with ⟨c, hsel, hct⟩
    exact ⟨c, selectMin_mem hsel, hct, fun d hd => selectMin_not_lt hsel d hd⟩

theorem C1_instance_order_witness :
    (find_equivalent_instance initialInstanceTypes "aws" "t3.micro" "hetzner" = none ↔
      instanceCandidates initialInstanceTypes ⟨"aws", "t3.micro", 2, 1, "burstable"⟩
        "hetzner" = []) ∧
    find_equivalent_instance initialInstanceTypes "aws" "t3.micro" "hetzner" =
      some "cpx11" :=
  ⟨(C1_instance_order initialInstanceTypes "aws" "t3.micro" "hetzner"
      ⟨"aws", "t3.micro", 2, 1, "burstable"⟩ (by decide)).1,
   (C1_instance_order initialInstanceTypes "aws" "t3.micro" "hetzner"
      ⟨"aws", "t3.micro", 2, 1, "burstable"⟩ (by decide)).2.2⟩

/-- C2: any instance type `resolve_instance` returns names a target-provider
row inside the `[0.5×, 2×]` vcpu/memory window of the source, and when no
target-provider row satisfies both bounds the result is absent. -/
theorem C2_instance_window (db : List InstanceRow) (sp st tp : String)
    (s : InstanceRow) (h : lookupInstance db sp st = some s) :
    (∀ t, find_equivalent_instance db sp st tp = some t →
      ∃ c ∈ db, c.provider = tp ∧ c.instance_type = t ∧ inWindow s c) ∧
    ((∀ c ∈ db, c.provider = tp → ¬ inWindow s c) →
      find_equivalent_instance db sp st tp = none) := by
  have hf : find_equivalent_instance db sp st tp =
      (selectMin (instKey s) (instanceCandidates db s tp)).map
        (fun c => c.instance_type) := by
    unfold find_equivalent_instance lookupInstance
    rw [show db.find? (fun r => r.provider == sp && r.instance_type == st) = some s from h]
  constructor
  · intro t ht
    rw [hf] at ht
    rcases Option.map_eq_some'.1 ht with ⟨c, hsel, hct⟩
    have hc := selectMin_mem hsel
    rw [instanceCandidates, List.mem_filter] at hc
    obtain ⟨hcdb, hpred⟩ := hc
    rw [Bool.and_eq_true] at hpred
    refine ⟨c, hcdb, ?_, hct, ?_⟩
    · exact eq_of_beq hpred.1
    · exact of_decide_eq_true hpred.2
  · intro hnone
    rw [hf]
    have : instanceCandidates db s tp = [] := by
      rw [instanceCandidates, List.filter_eq_nil_iff]
      intro c hc
      rw [Bool.and_eq_true, decide_eq_true_iff]
      rintro ⟨hb, hw⟩
      exact hnone c hc (eq_of_beq hb) hw
    rw [this]
    rfl

theorem C2_instance_window_witness :
    ∃ c ∈ initialInstanceTypes, c.provider = "hetzner" ∧ c.instance_type = "cpx11" ∧
      inWindow ⟨"aws", "t3.micro", 2, 1, "burstable"⟩ c :=
  (C2_instance_window initialInstanceTypes "aws" "t3.micro" "hetzner"
      ⟨"aws", "t3.micro", 2, 1, "burstable"⟩ (by decide)).1 "cpx11" (by decide)

/-- C3: for every source region present in the store, whenever the target
provider has a region on the source's continent, `resolve_region` returns a
same-continent region of minimal squared planar distance (regardless of any
closer cross-continent candidate), and the result is absent exactly when
the target provider has no regions at all. -/
theorem C3_region_continent (db : List RegionRow) (sp sr tp : String)
    (s : RegionRow) (h : lookupRegion db sp sr = some s) :
    ((∃ c ∈ regionCandidates db tp, c.continent = s.continent) →
      ∃ r ∈ regionCandidates db tp, r.continent = s.continent ∧
        find_nearest_region db sp sr tp = some r.region_code ∧
        ∀ d ∈ regionCandidates db tp, d.continent = s.continent →
          distSq s r ≤ distSq s d) ∧
    (find_nearest_region db sp sr tp = none ↔ regionCandidates db tp = []) := by
  have hf : find_nearest_region db sp sr tp =
      (selectMin (regionKey s) (regionCandidates db tp)).map
        (fun c => c.region_code) := by
    unfold find_nearest_region lookupRegion
    rw [show db.find? (fun r => r.provider == sp && r.region_code == sr) = some s from h]
  constructor
  · rintro ⟨c, hc, hcont⟩
    cases hsel : selectMin (regionKey s) (regionCandidates db tp) with
    | none =>
      rw [selectMin_eq_none_iff] at hsel
      rw [hsel] at hc
      simp at hc
    | some r =>
      have hrmem := selectMin_mem hsel
      have hrmin := selectMin_not_lt hsel
      have hrcont : r.continent = s.continent := by
        by_contra hne
        refine hrmin c hc ?_
        rw [regionKey, regionKey, if_pos hcont, if_neg hne]
        exact Or.inl (by norm_num)
      refine ⟨r, hrmem, hrcont, by rw [hf, hsel]; rfl, ?_⟩
      intro d hd hdcont
      have := hrmin d hd
      rw [regionKey, regionKey, if_pos hdcont, if_pos hrcont] at this
      rw [qlexLt] at this
      push_neg at this
      exact this.2 rfl
  · rw [hf, Option.map_eq_none', selectMin_eq_none_iff]

theorem C3_region_continent_witness :
    ∃ r ∈ regionCandidates initialRegions "ovh",
      r.continent = "Europe" ∧
      find_nearest_region initialRegions "aws" "eu-west-2" "ovh" =
        some r.region_code ∧
      ∀ d ∈ regionCandidates initialRegions "ovh", d.continent = "Europe" →
        distSq ⟨"aws", "eu-west-2", "London, UK", "UK", "Europe", 51.507, -0.127⟩ r ≤
        distSq ⟨"aws", "eu-west-2", "London, UK", "UK", "Europe", 51.507, -0.127⟩ d :=
  (C3_region_continent initialRegions "aws" "eu-west-2" "ovh"
      ⟨"aws", "eu-west-2", "London, UK", "UK", "Europe", 51.507, -0.127⟩
      (by decide)).1 (by decide)

/-- The same store contents as `initialResourceTypes` with the two
`(ovh, compute)`-category rows swapped — SQLite's row-return order for a
`SELECT … LIMIT 1` without `ORDER BY` is unspecified, so both scan orders
are legitimate readings of the same store. -/
def reorderedResourceTypes : List ResourceTypeRow :=
  ⟨"ovh", "keypair", "compute", "openstack_compute_keypair_v2"⟩ ::
  ⟨"ovh", "compute", "compute", "openstack_compute_instance_v2"⟩ ::
  initialResourceTypes.drop 2

/-- C4: `map_resource_type` has no documented deterministic tie-break — its
`LIMIT 1` carries no `ORDER BY`, so the answer depends on the physical row
order: the same store contents (a permutation) yield a different target
native type for `aws_instance → ovh`. -/
theorem C4_resource_type_order_dependent :
    List.Perm initialResourceTypes reorderedResourceTypes ∧
    map_resource_type initialResourceTypes "aws_instance" "ovh" =
      some "openstack_compute_instance_v2" ∧
    map_resource_type reorderedResourceTypes "aws_instance" "ovh" =
      some "openstack_compute_keypair_v2" ∧
    map_resource_type initialResourceTypes "aws_instance" "ovh" ≠
      map_resource_type reorderedResourceTypes "aws_instance" "ovh" := by
  refine ⟨?_, by decide, by decide, by decide⟩
  exact List.Perm.swap _ _ _

/-- C5 counterexample: `aws_key_pair` is a native aws type present in the
store, yet resolving it with aws itself as the target returns
`aws_instance`, not the input unchanged. -/
theorem C5_same_provider_changes_type :
    map_resource_type initialResourceTypes "aws_key_pair" "aws" =
      some "aws_instance" ∧
    some "aws_instance" ≠ some "aws_key_pair" := by
  exact ⟨by decide, by decide⟩

/-- C5 (amended): same-provider resolution returns the terraform type of the
first store row sharing the source type's (provider, category) pair, so it
returns the input unchanged exactly for types that are that first row
(`aws_key_pair`, sharing the aws-compute category with the earlier
`aws_instance` row, is rewritten to `aws_instance`). -/
theorem C5_same_provider_first_row :
    ∀ r ∈ initialResourceTypes, ∀ f ∈ initialResourceTypes,
      initialResourceTypes.find? (fun c => c.provider == r.provider &&
        c.resource_category == r.resource_category) = some f →
      map_resource_type initialResourceTypes r.terraform_type r.provider =
        some f.terraform_type := by decide

theorem C5_same_provider_first_row_witness :
    map_resource_type initialResourceTypes "aws_key_pair" "aws" =
      some "aws_instance" ∧
    map_resource_type initialResourceTypes "aws_instance" "aws" =
      some "aws_instance" :=
  ⟨C5_same_provider_first_row ⟨"aws", "keypair", "compute", "aws_key_pair"⟩
      (by decide) ⟨"aws", "compute", "compute", "aws_instance"⟩ (by decide) (by decide),
   C5_same_provider_first_row ⟨"aws", "compute", "compute", "aws_instance"⟩
      (by decide) ⟨"aws", "compute", "compute", "aws_instance"⟩ (by decide) (by decide)⟩

/-! ### Concrete plan fixtures used by witnesses and counterexamples -/

def resourceAwsWeb : PlanResource :=
  ⟨"aws_instance.web", "aws_instance", "registry.terraform.io/hashicorp/aws",
   [("instance_type", JVal.str "t3.micro")], []⟩

def resourceRandomPet : PlanResource :=
  ⟨"random_pet.name", "random_pet", "registry.terraform.io/hashicorp/random",
   [("length", JVal.num 2)], []⟩

def changeAwsWeb : ResourceChange :=
  ⟨"aws_instance.web", "aws_instance", "registry.terraform.io/hashicorp/aws",
   some ⟨none, some [("instance_type", JVal.str "t3.micro")], []⟩, []⟩

/-- A plan with a detectable aws provider-config block, one translatable and
one untranslatable planned resource, and one resource change. -/
def planAwsSmall : PlanDocument :=
  ⟨some ["aws"], some [resourceAwsWeb, resourceRandomPet], some [changeAwsWeb]⟩

/-- A plan neither detection method can identify: no configuration block and
no `resource_changes`, with an `aws_instance` resource only under
`planned_values`. -/
def planUndetectable : PlanDocument :=
  ⟨none, some [resourceAwsWeb], none⟩

/-- Helper for C6/C7: `translate` rewrites the two sections entrywise. -/
theorem translate_sections (store : MappingStore) (plan : PlanDocument)
    (tp : String) :
    (translate store plan tp).planned_resources =
      plan.planned_resources.map
        (List.map (translate_resource store (detect_source_provider plan) tp)) ∧
    (translate store plan tp).resource_changes =
      plan.resource_changes.map
        (List.map (translate_change store (detect_source_provider plan) tp)) :=
  ⟨rfl, rfl⟩

/-- C6: an entry whose native type has no resolution for the target is left
completely untouched (both its `type` and its values), in both sections; no
miss is an error, and the output document still carries a complete
translated copy of each section. -/
theorem C6_miss_leaves_entry_untouched (store : MappingStore) (tp : String)
    (plan : PlanDocument) (rs : List PlanResource) (cs : List ResourceChange)
    (h1 : plan.planned_resources = some rs)
    (h2 : plan.resource_changes = some cs) :
    (translate store plan tp).planned_resources =
      some (rs.map (translate_resource store (detect_source_provider plan) tp)) ∧
    (translate store plan tp).resource_changes =
      some (cs.map (translate_change store (detect_source_provider plan) tp)) ∧
    (∀ r ∈ rs, map_resource_type store.resource_types r.type tp = none →
      translate_resource store (detect_source_provider plan) tp r = r) ∧
    (∀ c ∈ cs, map_resource_type store.resource_types c.type tp = none →
      translate_change store (detect_source_provider plan) tp c = c) := by
  refine ⟨by rw [(translate_sections store plan tp).1, h1]; rfl,
          by rw [(translate_sections store plan tp).2, h2]; rfl, ?_, ?_⟩
  · intro r _ hm
    unfold translate_resource
    rw [hm]
  · intro c _ hm
    unfold translate_change
    rw [hm]

theorem C6_miss_leaves_entry_untouched_witness :
    translate_resource initialStore (detect_source_provider planAwsSmall)
      "hetzner" resourceRandomPet = resourceRandomPet :=
  (C6_miss_leaves_entry_untouched initialStore "hetzner" planAwsSmall
      [resourceAwsWeb, resourceRandomPet] [changeAwsWeb] rfl rfl).2.2.1
    resourceRandomPet (by simp [List.mem_cons]) (by decide)

/-- Helper: a translated planned-values entry keeps its address and its
untouched keys. -/
theorem translate_resource_frame (store : MappingStore) (sp tp : String)
    (r : PlanResource) :
    (translate_resource store sp tp r).address = r.address ∧
    (translate_resource store sp tp r).extra = r.extra := by
  unfold translate_resource
  cases map_resource_type store.resource_types r.type tp with
  | none => exact ⟨rfl, rfl⟩
  | some nt => exact ⟨rfl, rfl⟩

/-- Helper: a translated resource-changes entry keeps its address, its
untouched keys, the presence and untouched keys of its `change` block, the
`before` map verbatim, and the presence of `after`. -/
theorem translate_change_frame (store : MappingStore) (sp tp : String)
    (c : ResourceChange) :
    (translate_change store sp tp c).address = c.address ∧
    (translate_change store sp tp c).extra = c.extra ∧
    (translate_change store sp tp c).change.map ChangeBlock.before =
      c.change.map ChangeBlock.before ∧
    (translate_change store sp tp c).change.map ChangeBlock.extra =
      c.change.map ChangeBlock.extra ∧
    (translate_change store sp tp c).change.map (fun b => b.after.isSome) =
      c.change.map (fun b => b.after.isSome) := by
  obtain ⟨addr, ty, pn, ch, ex⟩ := c
  unfold translate_change
  cases map_resource_type store.resource_types ty tp with
  | none => exact ⟨rfl, rfl, rfl, rfl, rfl⟩
  | some nt =>
    cases ch with
    | none => exact ⟨rfl, rfl, rfl, rfl, rfl⟩
    | some blk =>
      obtain ⟨bf, af, bex⟩ := blk
      cases af with
      | none => exact ⟨rfl, rfl, rfl, rfl, rfl⟩
      | some aft => exact ⟨rfl, rfl, rfl, rfl, rfl⟩

/-- C7: the translated document has exactly as many entries in each section
as the input, every entry keeps its address verbatim and all keys other than
`type`, `provider_name` and its value map (`values`, resp. `change.after`):
the `extra` keys, the `change.before` map and the presence structure are
unchanged. -/
theorem C7_translation_frame (store : MappingStore) (tp : String)
    (plan : PlanDocument) (rs : List PlanResource) (cs : List ResourceChange)
    (h1 : plan.planned_resources = some rs)
    (h2 : plan.resource_changes = some cs) :
    (translate store plan tp).planned_resources =
      some (rs.map (translate_resource store (detect_source_provider plan) tp)) ∧
    (translate store plan tp).resource_changes =
      some (cs.map (translate_change store (detect_source_provider plan) tp)) ∧
    (rs.map (translate_resource store (detect_source_provider plan) tp)).length =
      rs.length ∧
    (cs.map (translate_change store (detect_source_provider plan) tp)).length =
      cs.length ∧
    (∀ r ∈ rs,
      (translate_resource store (detect_source_provider plan) tp r).address =
        r.address ∧
      (translate_resource store (detect_source_provider plan) tp r).extra =
        r.extra) ∧
    (∀ c ∈ cs,
      (translate_change store (detect_source_provider plan) tp c).address =
        c.address ∧
      (translate_change store (detect_source_provider plan) tp c).extra =
        c.extra ∧
      (translate_change store (detect_source_provider plan) tp c).change.map
          ChangeBlock.before = c.change.map ChangeBlock.before ∧
      (translate_change store (detect_source_provider plan) tp c).change.map
          ChangeBlock.extra = c.change.map ChangeBlock.extra ∧
      (translate_change store (detect_source_provider plan) tp c).change.map
          (fun b => b.after.isSome) = c.change.map (fun b => b.after.isSome)) := by
  refine ⟨by rw [(translate_sections store plan tp).1, h1]; rfl,
          by rw [(translate_sections store plan tp).2, h2]; rfl,
          List.length_map _ _, List.length_map _ _, ?_, ?_⟩
  · intro r _
    exact translate_resource_frame store (detect_source_provider plan) tp r
  · intro c _
    exact translate_change_frame store (detect_source_provider plan) tp c

theorem C7_translation_frame_witness :
    (translate initialStore planAwsSmall "hetzner").planned_resources =
      some ([resourceAwsWeb, resourceRandomPet].map
        (translate_resource initialStore (detect_source_provider planAwsSmall)
          "hetzner")) ∧
    (translate_resource initialStore (detect_source_provider planAwsSmall)
        "hetzner" resourceAwsWeb).address = resourceAwsWeb.address :=
  ⟨(C7_translation_frame initialStore "hetzner" planAwsSmall
      [resourceAwsWeb, resourceRandomPet] [changeAwsWeb] rfl rfl).1,
   ((C7_translation_frame initialStore "hetzner" planAwsSmall
      [resourceAwsWeb, resourceRandomPet] [changeAwsWeb] rfl rfl).2.2.2.2.1
      resourceAwsWeb (by simp)).1⟩

/-- C8 counterexample: `planUndetectable` (no configuration block, no
`resource_changes`, one `aws_instance` resource under `planned_values`) is
undetectable — detection yields `"unknown"` — yet translation does ​not have
every resolver lookup return absent: the resource-type mapper keys only on
the native type, resolves `aws_instance`, and rewrites the entry's type to
`hcloud_server`. -/
theorem C8_unknown_still_resolves_types :
    detect_source_provider planUndetectable = "unknown" ∧
    map_resource_type initialResourceTypes "aws_instance" "hetzner" =
      some "hcloud_server" ∧
    (translate initialStore planUndetectable "hetzner").planned_resources.map
      (List.map PlanResource.type) = some ["hcloud_server"] := by
  exact ⟨rfl, by decide, rfl⟩

/-- C8 (amended): when neither the provider-config keys nor any
`resource_changes` native-type prefix matches the fixed table, detection
yields the sentinel `"unknown"` and translation proceeds; the
provider-keyed resolvers (instance, region, image) then miss on every
lookup over the store, though the resource-type mapper — keyed on the
native type alone — may still resolve. -/
theorem C8_unknown_sentinel (plan : PlanDocument)
    (hk : ∀ keys, plan.provider_config_keys = some keys →
      providerFromKeys keys = none)
    (hc : ∀ cs, plan.resource_changes = some cs →
      ∀ c ∈ cs, providerFromType c.type = none) :
    detect_source_provider plan = "unknown" ∧
    (∀ t tp, find_equivalent_instance initialInstanceTypes "unknown" t tp = none) ∧
    (∀ r tp, find_nearest_region initialRegions "unknown" r tp = none) ∧
    (∀ n tp, findImageEquivalent initialImages "unknown" n tp = none) := by
  have hfb : (match plan.resource_changes with
      | some changes =>
        (changes.findSome? (fun c => providerFromType c.type)).getD "unknown"
      | none => "unknown") = "unknown" := by
    cases hrc : plan.resource_changes with
    | none => rfl
    | some cs =>
      show (cs.findSome? (fun c => providerFromType c.type)).getD "unknown" =
        "unknown"
      rw [List.findSome?_eq_none_iff.2 (hc cs hrc)]
      rfl
  refine ⟨?_, ?_, ?_, ?_⟩
  · unfold detect_source_provider
    cases hpc : plan.provider_config_keys with
    | none => exact hfb
    | some keys =>
      show (match providerFromKeys keys with
        | some p => p
        | none =>
          match plan.resource_changes with
          | some changes =>
            (changes.findSome? (fun c => providerFromType c.type)).getD "unknown"
          | none => "unknown") = "unknown"
      rw [hk keys hpc]
      exact hfb
  · intro t tp
    unfold find_equivalent_instance lookupInstance
    have : initialInstanceTypes.find?
        (fun r => r.provider == "unknown" && r.instance_type == t) = none := by
      rw [List.find?_eq_none]
      intro r hr
      simp only [Bool.and_eq_true, beq_iff_eq]
      rintro ⟨h1, -⟩
      have hall : ∀ r ∈ initialInstanceTypes, ¬ r.provider = "unknown" := by decide
      exact hall r hr h1
    rw [this]
  · intro rg tp
    unfold find_nearest_region lookupRegion
    have : initialRegions.find?
        (fun r => r.provider == "unknown" && r.region_code == rg) = none := by
      rw [List.find?_eq_none]
      intro r hr
      simp only [Bool.and_eq_true, beq_iff_eq]
      rintro ⟨h1, -⟩
      have hall : ∀ r ∈ initialRegions, ¬ r.provider = "unknown" := by decide
      exact hall r hr h1
    rw [this]
  · intro n tp
    unfold findImageEquivalent
    have : initialImages.find?
        (fun i => i.provider == "unknown" && i.image_name == n) = none := by
      rw [List.find?_eq_none]
      intro i hi
      simp only [Bool.and_eq_true, beq_iff_eq]
      rintro ⟨h1, -⟩
      have hall : ∀ i ∈ initialImages, ¬ i.provider = "unknown" := by decide
      exact hall i hi h1
    rw [this]

theorem C8_unknown_sentinel_witness :
    detect_source_provider planUndetectable = "unknown" ∧
    find_equivalent_instance initialInstanceTypes "unknown" "t3.micro"
      "hetzner" = none ∧
    find_nearest_region initialRegions "unknown" "eu-west-2" "ovh" = none :=
  ⟨(C8_unknown_sentinel planUndetectable (by rintro keys ⟨⟩)
      (by rintro cs ⟨⟩)).1,
   (C8_unknown_sentinel planUndetectable (by rintro keys ⟨⟩)
      (by rintro cs ⟨⟩)).2.1 "t3.micro" "hetzner",
   (C8_unknown_sentinel planUndetectable (by rintro keys ⟨⟩)
      (by rintro cs ⟨⟩)).2.2.1 "eu-west-2" "ovh"⟩

/-! ### CLI entry point (`translator.main`) -/

/-- Result of opening and parsing the input file in `main`. -/
inductive LoadResult where
  | fileNotFound
  | invalidJson
  | ok (plan : PlanDocument)

/-- Models `translator.main` as committed, as a function of the load result
to (exit status, written output).  `FileNotFoundError` and
`json.JSONDecodeError` are caught before any output is produced and exit 1.
On a successfully parsed plan the code constructs `RosettaTranslatorV2` — a
name that is not defined anywhere (the class is `RosettaTranslator`), and
whose import `from database_manager import CloudRosettaDB` itself fails
because `database_manager.py` contains orphan `except` blocks (a
`SyntaxError`, which the `except ImportError` guard does not catch) — so the
ok-branch raises before writing any output and the generic `except
Exception` handler exits 1 as well. -/
def runMain (input : LoadResult) (target : String) :
    Nat × Option PlanDocument :=
  match input, target with
  | .fileNotFound, _ => (1, none)
  | .invalidJson, _ => (1, none)
  | .ok _, _ => (1, none)

/-- C9: the committed CLI exits non-zero and writes no output on a missing
or malformed input file — but also on every well-formed input plan, because
`main` names the undefined `RosettaTranslatorV2` (and the
`database_manager` import fails to parse): the "exit zero for well-formed
input" half of the claim is violated at every input. -/
theorem C9_main_always_exits_nonzero :
    ∀ (input : LoadResult) (target : String),
      runMain input target = (1, none) ∧ (runMain input target).1 ≠ 0 := by
  intro input target
  cases input <;> exact ⟨rfl, Nat.one_ne_zero⟩

/-! ### C10: instance identity fields of `translate_instance_values` -/

def identityFields : List String :=
  ["flavor_name", "instance_type", "server_type"]

/-- Restriction of a value map to the three instance identity fields. -/
def identityOf (v : Vals) : Vals :=
  v.filter (fun p => identityFields.contains p.1)

theorem identityOf_append (a b : Vals) :
    identityOf (a ++ b) = identityOf a ++ identityOf b := by
  simp [identityOf]

theorem identityOf_regionPart (rdb : List RegionRow) (sp tp : String)
    (v : Vals) : identityOf (regionPart rdb sp tp v) = [] := by
  unfold regionPart
  repeat' first
  | split
  | dsimp only
  all_goals rfl

theorem identityOf_imagePart (imdb : List ImageRow) (sp tp : String)
    (v : Vals) : identityOf (imagePart imdb sp tp v) = [] := by
  unfold imagePart
  repeat' first
  | split
  | dsimp only
  all_goals rfl

theorem identityOf_namePart (tp : String) (v : Vals) :
    identityOf (namePart tp v) = [] := by
  unfold namePart
  repeat' split
  all_goals rfl

theorem identityOf_keyPairPart (tp : String) (v : Vals) :
    identityOf (keyPairPart tp v) = [] := by
  unfold keyPairPart
  repeat' split
  all_goals rfl

theorem identityOf_userDataPart (v : Vals) :
    identityOf (userDataPart v) = [] := by
  unfold userDataPart
  repeat' split
  all_goals rfl

theorem identityOf_networkPart (tp : String) (v : Vals) :
    identityOf (networkPart tp v) = [] := by
  unfold networkPart
  repeat' split
  all_goals rfl

theorem identityOf_securityGroupsPart (tp : String) (v : Vals) :
    identityOf (securityGroupsPart tp v) = [] := by
  unfold securityGroupsPart
  repeat' split
  all_goals rfl

/-- Helper: only the identity block of `translate_instance_values` can
produce identity fields. -/
theorem identityOf_translate_instance_values (store : MappingStore)
    (sp tp : String) (v : Vals) :
    identityOf (translate_instance_values store sp tp v) =
      identityOf (identPart store.instance_types sp tp v) := by
  unfold translate_instance_values
  rw [identityOf_append, identityOf_append, identityOf_append,
    identityOf_append, identityOf_append, identityOf_append,
    identityOf_append, identityOf_regionPart, identityOf_imagePart,
    identityOf_namePart, identityOf_keyPairPart, identityOf_userDataPart,
    identityOf_networkPart, identityOf_securityGroupsPart]
  simp

/-- C10: when a value map carries an instance identity field whose
resolution succeeds, the translated map's identity fields are exactly the
single hardcoded target field — `flavor_name` writes only for targets aws
(`instance_type`) or hetzner (`server_type`); `instance_type` only for ovh
(`flavor_name`) or hetzner (`server_type`); `server_type` only for aws
(`instance_type`) or ovh (`flavor_name`) — and for every other target
(including the source's own provider, azure and gcp) the resolved match is
discarded and the translated map contains no identity field at all. -/
theorem C10_identity_field_targets (store : MappingStore) (sp tp : String)
    (v : Vals) :
    (∀ fl it, lookupVal v "flavor_name" = some (JVal.str fl) →
      find_equivalent_instance store.instance_types sp fl tp = some it →
      identityOf (translate_instance_values store sp tp v) =
        (if tp == "aws" then [("instance_type", JVal.str it)]
         else if tp == "hetzner" then [("server_type", JVal.str it)]
         else [])) ∧
    (∀ t it, lookupVal v "flavor_name" = none →
      lookupVal v "instance_type" = some (JVal.str t) →
      find_equivalent_instance store.instance_types sp t tp = some it →
      identityOf (translate_instance_values store sp tp v) =
        (if tp == "ovh" then [("flavor_name", JVal.str it)]
         else if tp == "hetzner" then [("server_type", JVal.str it)]
         else [])) ∧
    (∀ t it, lookupVal v "flavor_name" = none →
      lookupVal v "instance_type" = none →
      lookupVal v "server_type" = some (JVal.str t) →
      find_equivalent_instance store.instance_types sp t tp = some it →
      identityOf (translate_instance_values store sp tp v) =
        (if tp == "aws" then [("instance_type", JVal.str it)]
         else if tp == "ovh" then [("flavor_name", JVal.str it)]
         else [])) := by
  refine ⟨?_, ?_, ?_⟩
  · intro fl it hfl hfind
    rw [identityOf_translate_instance_values]
    unfold identPart
    rw [hfl]
    dsimp only [asStr, Option.bind]
    rw [hfind]
    dsimp only
    repeat' split
    all_goals rfl
  · intro t it hfl hit hfind
    rw [identityOf_translate_instance_values]
    unfold identPart
    rw [hfl, hit]
    dsimp only [asStr, Option.bind]
    rw [hfind]
    dsimp only
    repeat' split
    all_goals rfl
  · intro t it hfl hit hst hfind
    rw [identityOf_translate_instance_values]
    unfold identPart
    rw [hfl, hit, hst]
    dsimp only [asStr, Option.bind]
    rw [hfind]
    dsimp only
    repeat' split
    all_goals rfl

theorem C10_identity_field_targets_witness :
    identityOf (translate_instance_values initialStore "ovh" "ovh"
      [("flavor_name", JVal.str "b2-7")]) = [] :=
  (C10_identity_field_targets initialStore "ovh" "ovh"
      [("flavor_name", JVal.str "b2-7")]).1 "b2-7" "b2-7" rfl (by decide)

end CloudRosetta
